import Mathlib

/-!
Formalisation of the SCD Type II employee ETL (src/python_employee_etl.py).

Dates are modelled as integers counting days since 1970-01-01, so that
`expiry_date = effective_date - INTERVAL '1 day'` becomes subtraction by one
and PostgreSQL's date order becomes the order on `Int`.  String-valued
columns that may be SQL NULL are `Option String`; `sqlEqStr` is the SQL
`=` comparison on such columns collapsed to `Bool` (NULL on either side
never matches, as in a SQL WHERE clause).  The `hr.dim_employee` table is a
list of rows plus the next value of the serial surrogate key
`employee_key`.  Database connectivity, logging and the CLI are outside the
model; within it every modelled statement is total, matching the fact that
the Python code raises only driver-level `psycopg2` errors.
-/

/-- Day number of the sentinel date 9999-12-31 used for open rows. -/
def infiniteSentinel : Int := 2932896

/-- Day number of 2025-08-12. -/
def day20250812 : Int := 20312

/-- Day number of 2025-08-13, the effective date of spec scenario B. -/
def day20250813 : Int := 20313

/-- SQL equality on nullable text columns: NULL never compares equal. -/
def sqlEqStr : Option String → Option String → Bool
  | some a, some b => a == b
  | _, _ => false

/-- Python's str() applied to an optional string, as used in f-strings:
`None` renders as the text "None". -/
def pyStr : Option String → String
  | none => "None"
  | some s => s

/-- Python's str.strip(): remove leading and trailing whitespace (stated on
the character list of the string, by structural recursion). -/
def pyStrip (s : String) : String :=
  ⟨((s.data.dropWhile Char.isWhitespace).reverse.dropWhile Char.isWhitespace).reverse⟩

/-- One row of `hr.dim_employee` (audit timestamp columns omitted: they are
`CURRENT_TIMESTAMP` noise with no business meaning). -/
structure Row where
  employee_key : Nat
  employee_id : Option String
  first_name : Option String
  last_name : Option String
  full_name : Option String
  email_address : Option String
  phone_number : Option String
  birth_date : Option String
  gender : Option String
  ethnicity : Option String
  nationality : Option String
  marital_status : Option String
  address_line1 : Option String
  address_line2 : Option String
  city : Option String
  state_province : Option String
  postal_code : Option String
  country_code : Option String
  hire_date : Option String
  termination_date : Option String
  is_active : Option Bool
  effective_date : Int
  expiry_date : Int
  is_current : Bool
deriving Repr, DecidableEq

/-- The `hr.dim_employee` table plus the next serial `employee_key`. -/
structure Store where
  rows : List Row
  nextKey : Nat
deriving Repr, DecidableEq

/-- An empty dimension table. -/
def emptyStore : Store := { rows := [], nextKey := 1 }

/-- `personal_info` sub-dictionary of a source record; `none` means the key
is absent from the JSON (dict.get returns None). -/
structure RawPersonal where
  first_name : Option String := none
  last_name : Option String := none
  birth_date : Option String := none
  gender : Option String := none
  ethnicity : Option String := none
  nationality : Option String := none
  marital_status : Option String := none
deriving Repr, DecidableEq

/-- `contact_info.address` sub-dictionary; `none` means the key is absent. -/
structure RawAddress where
  address_line1 : Option String := none
  address_line2 : Option String := none
  city : Option String := none
  state_province : Option String := none
  postal_code : Option String := none
  country_code : Option String := none
deriving Repr, DecidableEq

/-- `contact_info` sub-dictionary of a source record. -/
structure RawContact where
  email_address : Option String := none
  phone_number : Option String := none
  address : RawAddress := {}
deriving Repr, DecidableEq

/-- `employment_data` sub-dictionary of a source record. -/
structure RawEmployment where
  hire_date : Option String := none
deriving Repr, DecidableEq

/-- The `employee_data` dictionary of one source record. -/
structure RawEmployeeData where
  employee_id : Option String := none
  personal_info : RawPersonal := {}
  contact_info : RawContact := {}
  employment_data : RawEmployment := {}
deriving Repr, DecidableEq

/-- One record of the input batch: a declared `operation_type` tag and the
`employee_data` payload. -/
structure SourceRecord where
  operation_type : String
  employee_data : RawEmployeeData := {}
deriving Repr, DecidableEq

/-- The dictionary built by `_extract_new_employee_data`. -/
structure NewEmployee where
  employee_id : Option String
  first_name : Option String
  last_name : Option String
  full_name : String
  email_address : Option String
  phone_number : Option String
  birth_date : Option String
  gender : Option String
  ethnicity : Option String
  nationality : Option String
  marital_status : Option String
  address_line1 : Option String
  address_line2 : Option String
  city : Option String
  state_province : Option String
  postal_code : Option String
  country_code : Option String
  hire_date : Option String
  is_active : Bool
  effective_date : Int
  expiry_date : Int
  is_current : Bool
deriving Repr, DecidableEq

/-- The dictionary built by `_extract_address_update_data`. -/
structure AddressUpdate where
  employee_id : Option String
  address_line1 : Option String
  address_line2 : Option String
  city : Option String
  state_province : Option String
  postal_code : Option String
  country_code : Option String
  effective_date : Int
deriving Repr, DecidableEq

/-- The dictionary built by `_extract_name_address_update_data`. -/
structure NameAddressUpdate where
  employee_id : Option String
  last_name : Option String
  address_line1 : Option String
  address_line2 : Option String
  city : Option String
  state_province : Option String
  postal_code : Option String
  country_code : Option String
  effective_date : Int
deriving Repr, DecidableEq

/-- EmployeeETL._extract_new_employee_data: flattens the nested payload;
`full_name` is the f-string of the two name parts (missing parts default to
the empty string) stripped; `effective_date` is `date.today()`, passed here
explicitly as `today`. -/
def _extract_new_employee_data (today : Int) (d : RawEmployeeData) : NewEmployee :=
  { employee_id := d.employee_id
    first_name := d.personal_info.first_name
    last_name := d.personal_info.last_name
    full_name :=
      pyStrip ((d.personal_info.first_name.getD "") ++ " " ++ (d.personal_info.last_name.getD ""))
    email_address := d.contact_info.email_address
    phone_number := d.contact_info.phone_number
    birth_date := d.personal_info.birth_date
    gender := d.personal_info.gender
    ethnicity := d.personal_info.ethnicity
    nationality := d.personal_info.nationality
    marital_status := d.personal_info.marital_status
    address_line1 := d.contact_info.address.address_line1
    address_line2 := d.contact_info.address.address_line2
    city := d.contact_info.address.city
    state_province := d.contact_info.address.state_province
    postal_code := d.contact_info.address.postal_code
    country_code := d.contact_info.address.country_code
    hire_date := d.employment_data.hire_date
    is_active := true
    effective_date := today
    expiry_date := infiniteSentinel
    is_current := true }

/-- EmployeeETL._extract_address_update_data: keeps the entity id and the
six address fields (absent keys become None); `effective_date` is
`date.today()`. -/
def _extract_address_update_data (today : Int) (d : RawEmployeeData) : AddressUpdate :=
  { employee_id := d.employee_id
    address_line1 := d.contact_info.address.address_line1
    address_line2 := d.contact_info.address.address_line2
    city := d.contact_info.address.city
    state_province := d.contact_info.address.state_province
    postal_code := d.contact_info.address.postal_code
    country_code := d.contact_info.address.country_code
    effective_date := today }

/-- EmployeeETL._extract_name_address_update_data: like the address variant
plus the new `last_name`. -/
def _extract_name_address_update_data (today : Int) (d : RawEmployeeData) : NameAddressUpdate :=
  { employee_id := d.employee_id
    last_name := d.personal_info.last_name
    address_line1 := d.contact_info.address.address_line1
    address_line2 := d.contact_info.address.address_line2
    city := d.contact_info.address.city
    state_province := d.contact_info.address.state_province
    postal_code := d.contact_info.address.postal_code
    country_code := d.contact_info.address.country_code
    effective_date := today }

/-- The `parsed_data` OrderedDict: three operation lists in routing order. -/
structure ParsedData where
  new_employees : List NewEmployee
  address_updates : List AddressUpdate
  name_and_address_updates : List NameAddressUpdate
deriving Repr, DecidableEq

/-- One iteration of the routing loop in `parse_employee_data`: the
if/elif chain on `operation_type`; a record matching no branch is left
untouched (no else branch in the source). -/
def parseStep (today : Int) (acc : ParsedData) (r : SourceRecord) : ParsedData :=
  if r.operation_type == "INSERT" then
    { acc with new_employees :=
        acc.new_employees ++ [_extract_new_employee_data today r.employee_data] }
  else if r.operation_type == "UPDATE_ADDRESS" then
    { acc with address_updates :=
        acc.address_updates ++ [_extract_address_update_data today r.employee_data] }
  else if r.operation_type == "UPDATE_NAME_ADDRESS" then
    { acc with name_and_address_updates :=
        acc.name_and_address_updates ++ [_extract_name_address_update_data today r.employee_data] }
  else acc

/-- EmployeeETL.parse_employee_data: routes each record of the batch by its
`operation_type` into the three lists, preserving file order inside each
list. -/
def parse_employee_data (today : Int) (records : List SourceRecord) : ParsedData :=
  records.foldl (parseStep today)
    { new_employees := [], address_updates := [], name_and_address_updates := [] }

/-- The row written by the INSERT statement of `_insert_new_employees`:
the extracted values, `termination_date` NULL, and the serial key. -/
def rowOfNewEmployee (k : Nat) (e : NewEmployee) : Row :=
  { employee_key := k
    employee_id := e.employee_id
    first_name := e.first_name
    last_name := e.last_name
    full_name := some e.full_name
    email_address := e.email_address
    phone_number := e.phone_number
    birth_date := e.birth_date
    gender := e.gender
    ethnicity := e.ethnicity
    nationality := e.nationality
    marital_status := e.marital_status
    address_line1 := e.address_line1
    address_line2 := e.address_line2
    city := e.city
    state_province := e.state_province
    postal_code := e.postal_code
    country_code := e.country_code
    hire_date := e.hire_date
    termination_date := none
    is_active := some e.is_active
    effective_date := e.effective_date
    expiry_date := e.expiry_date
    is_current := e.is_current }

/-- The INSERT statement of `_insert_new_employees`: appends the new row
and advances the serial key. -/
def insert_new_employee (s : Store) (e : NewEmployee) : Store :=
  { rows := s.rows ++ [rowOfNewEmployee s.nextKey e], nextKey := s.nextKey + 1 }

/-- EmployeeETL._insert_new_employees: loop of INSERTs, counting rows. -/
def _insert_new_employees (s : Store) (es : List NewEmployee) : Store × Nat :=
  es.foldl (fun acc e => (insert_new_employee acc.1 e, acc.2 + 1)) (s, 0)

/-- The SET clause of the close UPDATE applied to one matching row. -/
def closeRow (eff : Int) (r : Row) : Row :=
  { r with expiry_date := eff - 1, is_current := false }

/-- Effect of the close UPDATE on one row: rows matching
`employee_id = %s AND is_current = TRUE` are closed, others untouched. -/
def closeFun (eid : Option String) (eff : Int) (r : Row) : Row :=
  if sqlEqStr r.employee_id eid && r.is_current then closeRow eff r else r

/-- Step 1 of both update paths, the close UPDATE: it carries no row limit,
so it rewrites every current row of the entity. -/
def closeCurrent (s : Store) (eid : Option String) (eff : Int) : Store :=
  { s with rows := s.rows.map (closeFun eid eff) }

/-- ORDER BY employee_key DESC LIMIT 1 over a result set. -/
def maxByKey : List Row → Option Row
  | [] => none
  | r :: rs =>
    match maxByKey rs with
    | none => some r
    | some m => if m.employee_key ≤ r.employee_key then some r else some m

/-- Step 2 of both update paths, the snapshot SELECT:
`WHERE employee_id = %s AND expiry_date = %s - INTERVAL '1 day'
ORDER BY employee_key DESC LIMIT 1`. -/
def selectClosed (s : Store) (eid : Option String) (eff : Int) : Option Row :=
  maxByKey (s.rows.filter (fun r => sqlEqStr r.employee_id eid && r.expiry_date == eff - 1))

/-- One iteration of `_update_employee_addresses`: close, fetch the
just-closed snapshot, and if one exists insert the successor row taking
the address columns from the update dictionary and everything else from
the snapshot; if no snapshot row is found the event is skipped (the
`if existing_data:` guard) and contributes no count. -/
def apply_address_update (s : Store) (u : AddressUpdate) : Store × Nat :=
  let s1 := closeCurrent s u.employee_id u.effective_date
  match selectClosed s1 u.employee_id u.effective_date with
  | none => (s1, 0)
  | some ex =>
    let newRow : Row := {
        employee_key := s1.nextKey
        employee_id := ex.employee_id
        first_name := ex.first_name
        last_name := ex.last_name
        full_name := ex.full_name
        email_address := ex.email_address
        phone_number := ex.phone_number
        birth_date := ex.birth_date
        gender := ex.gender
        ethnicity := ex.ethnicity
        nationality := ex.nationality
        marital_status := ex.marital_status
        address_line1 := u.address_line1
        address_line2 := u.address_line2
        city := u.city
        state_province := u.state_province
        postal_code := u.postal_code
        country_code := u.country_code
        hire_date := ex.hire_date
        termination_date := ex.termination_date
        is_active := ex.is_active
        effective_date := u.effective_date
        expiry_date := infiniteSentinel
        is_current := true }
    ({ rows := s1.rows ++ [newRow], nextKey := s1.nextKey + 1 }, 1)

/-- EmployeeETL._update_employee_addresses: the loop over the updates. -/
def _update_employee_addresses (s : Store) (us : List AddressUpdate) : Store × Nat :=
  us.foldl (fun acc u =>
    let r := apply_address_update acc.1 u
    (r.1, acc.2 + r.2)) (s, 0)

/-- One iteration of `_update_employee_names_addresses`: same close+select
+insert shape; the SELECT omits last_name/full_name, the new full name is
the f-string of the snapshot first name and the update's last name (None
rendering as "None", no strip). -/
def apply_name_address_update (s : Store) (u : NameAddressUpdate) : Store × Nat :=
  let s1 := closeCurrent s u.employee_id u.effective_date
  match selectClosed s1 u.employee_id u.effective_date with
  | none => (s1, 0)
  | some ex =>
    let newRow : Row := {
        employee_key := s1.nextKey
        employee_id := ex.employee_id
        first_name := ex.first_name
        last_name := u.last_name
        full_name := some (pyStr ex.first_name ++ " " ++ pyStr u.last_name)
        email_address := ex.email_address
        phone_number := ex.phone_number
        birth_date := ex.birth_date
        gender := ex.gender
        ethnicity := ex.ethnicity
        nationality := ex.nationality
        marital_status := ex.marital_status
        address_line1 := u.address_line1
        address_line2 := u.address_line2
        city := u.city
        state_province := u.state_province
        postal_code := u.postal_code
        country_code := u.country_code
        hire_date := ex.hire_date
        termination_date := ex.termination_date
        is_active := ex.is_active
        effective_date := u.effective_date
        expiry_date := infiniteSentinel
        is_current := true }
    ({ rows := s1.rows ++ [newRow], nextKey := s1.nextKey + 1 }, 1)

/-- EmployeeETL._update_employee_names_addresses: the loop over updates. -/
def _update_employee_names_addresses (s : Store) (us : List NameAddressUpdate) : Store × Nat :=
  us.foldl (fun acc u =>
    let r := apply_name_address_update acc.1 u
    (r.1, acc.2 + r.2)) (s, 0)

/-- EmployeeETL.set_employee: processes all new employees, then all address
updates, then all name-and-address updates inside one transaction and
commits.  The exception branch (rollback, return False) is reachable only
through driver-level `psycopg2` errors of the external database, which have
no counterpart among the modelled statements, so the modelled batch always
commits and returns True. -/
def set_employee (s : Store) (p : ParsedData) : Bool × Store :=
  let r1 := _insert_new_employees s p.new_employees
  let r2 := _update_employee_addresses r1.1 p.address_updates
  let r3 := _update_employee_names_addresses r2.1 p.name_and_address_updates
  (true, r3.1)

/-- The employee_id column of every current row, one entry per row, as
scanned by the duplicate-currents GROUP BY (SQL groups NULLs together,
hence grouping on `Option String` with plain equality). -/
def currentIdList (s : Store) : List (Option String) :=
  (s.rows.filter (fun r => r.is_current)).map (fun r => r.employee_id)

/-- The duplicate-currents check of `validate_data_quality`:
GROUP BY employee_id HAVING COUNT(*) > 1 over the current rows; the result
is the list of offending entity ids (one entry per entity, not per row). -/
def duplicate_current_ids (s : Store) : List (Option String) :=
  (currentIdList s).dedup.filter (fun i => decide (1 < (currentIdList s).count i))

/-- The inverted-range check of `validate_data_quality`:
rows WHERE effective_date >= expiry_date. -/
def invalid_date_rows (s : Store) : List Row :=
  s.rows.filter (fun r => decide (r.expiry_date ≤ r.effective_date))

/-- EmployeeETL.validate_data_quality: read-only; fails on duplicate
current rows, then on inverted date ranges. -/
def validate_data_quality (s : Store) : Bool :=
  if (duplicate_current_ids s).isEmpty = false then false
  else if (invalid_date_rows s).isEmpty = false then false
  else true

/-- The main flow around the store: parse, apply the batch (commit), then
run quality validation on the committed store.  The returned store is the
committed one; validation only produces the Bool verdict. -/
def main_flow (today : Int) (records : List SourceRecord) (s : Store) : Store × Bool :=
  let r := set_employee s (parse_employee_data today records)
  (r.2, validate_data_quality r.2)

/-- Dispatch of a single source record to its SCD2 operation, used to state
batch-order properties: INSERT, UPDATE_ADDRESS, UPDATE_NAME_ADDRESS, and a
no-op for unknown tags. -/
def apply_record (today : Int) (s : Store) (r : SourceRecord) : Store :=
  if r.operation_type == "INSERT" then
    insert_new_employee s (_extract_new_employee_data today r.employee_data)
  else if r.operation_type == "UPDATE_ADDRESS" then
    (apply_address_update s (_extract_address_update_data today r.employee_data)).1
  else if r.operation_type == "UPDATE_NAME_ADDRESS" then
    (apply_name_address_update s (_extract_name_address_update_data today r.employee_data)).1
  else s

/-- Modelled from the spec: the batch semantics the spec asserts, namely
applying the events strictly in their input-sequence order regardless of
kind ("no event's processing may be reordered relative to its position in
the batch").  Stated for comparison with the pipeline
`parse_employee_data` + `set_employee`. -/
def applyBatchInInputOrder (today : Int) (s : Store) (records : List SourceRecord) : Store :=
  records.foldl (apply_record today) s

/-- The current rows of one entity (SQL-equality on the id column). -/
def currentFor (rows : List Row) (eid : Option String) : List Row :=
  rows.filter (fun r => sqlEqStr r.employee_id eid && r.is_current)

/-- Invariant: every entity has at most one current row. -/
def AtMostOneCurrent (rows : List Row) : Prop :=
  ∀ eid : Option String, (currentFor rows eid).length ≤ 1

/-- Invariant: every row's validity interval is non-degenerate. -/
def DatesOK (rows : List Row) : Prop :=
  ∀ r ∈ rows, r.effective_date < r.expiry_date

/-! Helper lemmas about the store operations. -/

lemma bool_and_split {a b : Bool} (h : (a && b) = true) : a = true ∧ b = true := by
  cases a <;> cases b <;> simp_all

lemma sqlEqStr_eq {a b : Option String} (h : sqlEqStr a b = true) : a = b := by
  cases a with
  | none => cases b <;> simp [sqlEqStr] at h
  | some x =>
    cases b with
    | none => simp [sqlEqStr] at h
    | some y => simp [sqlEqStr] at h; simp [h]

lemma sqlEqStr_of_ne {a b : Option String} (h : a ≠ b) : sqlEqStr a b = false := by
  cases hc : sqlEqStr a b with
  | false => rfl
  | true => exact absurd (sqlEqStr_eq hc) h

lemma sqlEqStr_self (x : String) : sqlEqStr (some x) (some x) = true := by
  simp [sqlEqStr]

lemma closeFun_employee_id (eid : Option String) (eff : Int) (r : Row) :
    (closeFun eid eff r).employee_id = r.employee_id := by
  unfold closeFun
  by_cases h : (sqlEqStr r.employee_id eid && r.is_current) = true
  · simp [h, closeRow]
  · simp [h]

lemma filter_map_congr {α : Type} (g : α → α) (p : α → Bool) :
    ∀ (l : List α), (∀ x ∈ l, p (g x) = p x ∧ (p x = true → g x = x)) →
      (l.map g).filter p = l.filter p := by
  intro l
  induction l with
  | nil => intro _; rfl
  | cons x t ih =>
    intro h
    have hx := h x (List.mem_cons_self x t)
    have ht := ih (fun y hy => h y (List.mem_cons_of_mem x hy))
    simp only [List.map_cons, List.filter_cons, hx.1]
    by_cases hp : p x = true
    · rw [if_pos hp, if_pos hp, hx.2 hp, ht]
    · rw [if_neg hp, if_neg hp, ht]

lemma currentFor_close_self (rows : List Row) (eid : Option String) (eff : Int) :
    currentFor (rows.map (closeFun eid eff)) eid = [] := by
  unfold currentFor
  rw [List.filter_eq_nil_iff]
  intro a ha
  rcases List.mem_map.mp ha with ⟨r, _, rfl⟩
  unfold closeFun
  by_cases h : (sqlEqStr r.employee_id eid && r.is_current) = true
  · simp [h, closeRow]
  · simp only [if_neg h]
    simp at h ⊢
    intro hq
    exact h hq

lemma currentFor_close_other (rows : List Row) (eid eid' : Option String) (eff : Int)
    (h : eid' ≠ eid) :
    currentFor (rows.map (closeFun eid eff)) eid' = currentFor rows eid' := by
  unfold currentFor
  apply filter_map_congr
  intro r _
  constructor
  · unfold closeFun
    by_cases hc : (sqlEqStr r.employee_id eid && r.is_current) = true
    · have hre : r.employee_id = eid := sqlEqStr_eq (bool_and_split hc).1
      have h1 : sqlEqStr r.employee_id eid' = false := by
        rw [hre]; exact sqlEqStr_of_ne (Ne.symm h)
      simp [hc, closeRow, h1]
    · simp [hc]
  · intro hp
    unfold closeFun
    by_cases hc : (sqlEqStr r.employee_id eid && r.is_current) = true
    · have hre : r.employee_id = eid := sqlEqStr_eq (bool_and_split hc).1
      have h1 : sqlEqStr r.employee_id eid' = false := by
        rw [hre]; exact sqlEqStr_of_ne (Ne.symm h)
      rw [(bool_and_split hp).1] at h1
      cases h1
    · simp [hc]

lemma maxByKey_eq_none {l : List Row} (h : maxByKey l = none) : l = [] := by
  cases l with
  | nil => rfl
  | cons r rs =>
    exfalso
    unfold maxByKey at h
    cases hm : maxByKey rs with
    | none =>
      rw [hm] at h
      exact Option.noConfusion h
    | some m =>
      rw [hm] at h
      have h' : (if m.employee_key ≤ r.employee_key then some r else some m) = (none : Option Row) := h
      by_cases hk : m.employee_key ≤ r.employee_key
      · rw [if_pos hk] at h'; exact Option.noConfusion h'
      · rw [if_neg hk] at h'; exact Option.noConfusion h'

lemma maxByKey_spec {l : List Row} {r : Row} (h : maxByKey l = some r) :
    r ∈ l ∧ ∀ x ∈ l, x.employee_key ≤ r.employee_key := by
  induction l generalizing r with
  | nil => cases h
  | cons a t ih =>
    unfold maxByKey at h
    cases hm : maxByKey t with
    | none =>
      rw [hm] at h
      have h' : (some a : Option Row) = some r := h
      have ht : t = [] := maxByKey_eq_none hm
      subst ht
      cases h'
      constructor
      · exact List.mem_cons_self _ _
      · intro x hx
        rcases List.mem_cons.mp hx with hxa | hxt
        · subst hxa; exact Nat.le_refl _
        · cases hxt
    | some m =>
      rw [hm] at h
      have h' : (if m.employee_key ≤ a.employee_key then some a else some m) = some r := h
      rcases ih hm with ⟨hmem, hmax⟩
      by_cases hk : m.employee_key ≤ a.employee_key
      · rw [if_pos hk] at h'
        cases h'
        constructor
        · exact List.mem_cons_self _ _
        · intro x hx
          rcases List.mem_cons.mp hx with hxa | hxt
          · subst hxa; exact Nat.le_refl _
          · exact Nat.le_trans (hmax x hxt) hk
      · rw [if_neg hk] at h'
        cases h'
        constructor
        · exact List.mem_cons_of_mem _ hmem
        · intro x hx
          rcases List.mem_cons.mp hx with hxa | hxt
          · subst hxa; exact Nat.le_of_lt (Nat.lt_of_not_le hk)
          · exact hmax x hxt

lemma selectClosed_spec {s : Store} {eid : Option String} {eff : Int} {ex : Row}
    (h : selectClosed s eid eff = some ex) :
    ex ∈ s.rows ∧ sqlEqStr ex.employee_id eid = true ∧ ex.expiry_date = eff - 1 := by
  unfold selectClosed at h
  rcases maxByKey_spec h with ⟨hmem, _⟩
  rcases List.mem_filter.mp hmem with ⟨hrow, hpred⟩
  rcases bool_and_split hpred with ⟨hp1, hp2⟩
  refine ⟨hrow, hp1, ?_⟩
  simpa using hp2

lemma map_id_of_mem {α : Type} (f : α → α) :
    ∀ (l : List α), (∀ x ∈ l, f x = x) → l.map f = l := by
  intro l
  induction l with
  | nil => intro _; rfl
  | cons x t ih =>
    intro h
    simp only [List.map_cons, h x (List.mem_cons_self x t),
      ih (fun y hy => h y (List.mem_cons_of_mem x hy))]

lemma currentFor_append (l1 l2 : List Row) (eid : Option String) :
    currentFor (l1 ++ l2) eid = currentFor l1 eid ++ currentFor l2 eid := by
  unfold currentFor
  exact List.filter_append l1 l2

lemma currentFor_singleton_le (r : Row) (eid : Option String) :
    (currentFor [r] eid).length ≤ 1 := by
  unfold currentFor
  by_cases h : (sqlEqStr r.employee_id eid && r.is_current) = true <;> simp [h]

lemma currentFor_singleton_ne (r : Row) (eid : Option String)
    (h : sqlEqStr r.employee_id eid = false) : currentFor [r] eid = [] := by
  unfold currentFor
  simp [h]

lemma amo_close (rows : List Row) (h : AtMostOneCurrent rows) (eid : Option String) (eff : Int) :
    AtMostOneCurrent (rows.map (closeFun eid eff)) := by
  intro eid'
  by_cases he : eid' = eid
  · subst he; rw [currentFor_close_self]; simp
  · rw [currentFor_close_other rows eid eid' eff he]; exact h eid'

lemma amo_close_append (rows : List Row) (h : AtMostOneCurrent rows) (eid : Option String)
    (eff : Int) (nr : Row) (hid : nr.employee_id = eid) :
    AtMostOneCurrent (rows.map (closeFun eid eff) ++ [nr]) := by
  intro eid'
  rw [currentFor_append]
  by_cases he : eid' = eid
  · subst he
    rw [currentFor_close_self]
    simpa using currentFor_singleton_le nr _
  · rw [currentFor_close_other rows eid eid' eff he,
      currentFor_singleton_ne nr eid' (by rw [hid]; exact sqlEqStr_of_ne (Ne.symm he))]
    simpa using h eid'

lemma datesok_close (rows : List Row) (eid : Option String) (eff : Int) (h : DatesOK rows)
    (hlt : ∀ r ∈ rows, sqlEqStr r.employee_id eid = true → r.is_current = true →
      r.effective_date < eff - 1) :
    DatesOK (rows.map (closeFun eid eff)) := by
  intro r' hr'
  rcases List.mem_map.mp hr' with ⟨r, hr, rfl⟩
  unfold closeFun
  by_cases hc : (sqlEqStr r.employee_id eid && r.is_current) = true
  · rcases bool_and_split hc with ⟨h1, h2⟩
    rw [if_pos hc]
    show (closeRow eff r).effective_date < (closeRow eff r).expiry_date
    simpa [closeRow] using hlt r hr h1 h2
  · rw [if_neg hc]
    exact h r hr

lemma datesok_append (l : List Row) (r : Row) (h : DatesOK l)
    (hr : r.effective_date < r.expiry_date) : DatesOK (l ++ [r]) := by
  intro x hx
  rcases List.mem_append.mp hx with hx1 | hx2
  · exact h x hx1
  · rw [List.mem_singleton] at hx2
    subst hx2
    exact hr

lemma insert_fold_fst : ∀ (es : List NewEmployee) (s : Store) (n : Nat),
    (es.foldl (fun acc e => (insert_new_employee acc.1 e, acc.2 + 1)) (s, n)).1 =
      es.foldl insert_new_employee s := by
  intro es
  induction es with
  | nil => intro s n; rfl
  | cons e t ih =>
    intro s n
    simp only [List.foldl_cons]
    exact ih _ _

lemma addr_fold_fst : ∀ (us : List AddressUpdate) (s : Store) (n : Nat),
    (us.foldl (fun acc u =>
        let r := apply_address_update acc.1 u
        (r.1, acc.2 + r.2)) (s, n)).1 =
      us.foldl (fun st u => (apply_address_update st u).1) s := by
  intro us
  induction us with
  | nil => intro s n; rfl
  | cons u t ih =>
    intro s n
    simp only [List.foldl_cons]
    exact ih _ _

lemma name_fold_fst : ∀ (us : List NameAddressUpdate) (s : Store) (n : Nat),
    (us.foldl (fun acc u =>
        let r := apply_name_address_update acc.1 u
        (r.1, acc.2 + r.2)) (s, n)).1 =
      us.foldl (fun st u => (apply_name_address_update st u).1) s := by
  intro us
  induction us with
  | nil => intro s n; rfl
  | cons u t ih =>
    intro s n
    simp only [List.foldl_cons]
    exact ih _ _

lemma insert_new_employees_fst (s : Store) (es : List NewEmployee) :
    (_insert_new_employees s es).1 = es.foldl insert_new_employee s :=
  insert_fold_fst es s 0

lemma update_addresses_fst (s : Store) (us : List AddressUpdate) :
    (_update_employee_addresses s us).1 =
      us.foldl (fun st u => (apply_address_update st u).1) s :=
  addr_fold_fst us s 0

lemma update_names_fst (s : Store) (us : List NameAddressUpdate) :
    (_update_employee_names_addresses s us).1 =
      us.foldl (fun st u => (apply_name_address_update st u).1) s :=
  name_fold_fst us s 0

lemma set_employee_fst (s : Store) (p : ParsedData) : (set_employee s p).1 = true := rfl

lemma set_employee_snd (s : Store) (p : ParsedData) :
    (set_employee s p).2 =
      p.name_and_address_updates.foldl (fun st u => (apply_name_address_update st u).1)
        (p.address_updates.foldl (fun st u => (apply_address_update st u).1)
          (p.new_employees.foldl insert_new_employee s)) := by
  show (_update_employee_names_addresses
      (_update_employee_addresses (_insert_new_employees s p.new_employees).1
        p.address_updates).1 p.name_and_address_updates).1 = _
  rw [insert_new_employees_fst, update_addresses_fst, update_names_fst]

lemma rowOfNewEmployee_id (k : Nat) (e : NewEmployee) :
    (rowOfNewEmployee k e).employee_id = e.employee_id := rfl

lemma amo_apply_address (s : Store) (h : AtMostOneCurrent s.rows) (u : AddressUpdate) :
    AtMostOneCurrent ((apply_address_update s u).1).rows := by
  unfold apply_address_update
  cases hsel : selectClosed (closeCurrent s u.employee_id u.effective_date) u.employee_id
      u.effective_date with
  | none =>
    simp only [hsel]
    exact amo_close s.rows h u.employee_id u.effective_date
  | some ex =>
    simp only [hsel]
    have hexid : ex.employee_id = u.employee_id := sqlEqStr_eq (selectClosed_spec hsel).2.1
    exact amo_close_append s.rows h u.employee_id u.effective_date _ hexid

lemma amo_apply_name (s : Store) (h : AtMostOneCurrent s.rows) (u : NameAddressUpdate) :
    AtMostOneCurrent ((apply_name_address_update s u).1).rows := by
  unfold apply_name_address_update
  cases hsel : selectClosed (closeCurrent s u.employee_id u.effective_date) u.employee_id
      u.effective_date with
  | none =>
    simp only [hsel]
    exact amo_close s.rows h u.employee_id u.effective_date
  | some ex =>
    simp only [hsel]
    have hexid : ex.employee_id = u.employee_id := sqlEqStr_eq (selectClosed_spec hsel).2.1
    exact amo_close_append s.rows h u.employee_id u.effective_date _ hexid

lemma amo_insert_fresh (s : Store) (h : AtMostOneCurrent s.rows) (e : NewEmployee)
    (hfresh : currentFor s.rows e.employee_id = []) :
    AtMostOneCurrent (insert_new_employee s e).rows := by
  intro eid'
  have hrows : (insert_new_employee s e).rows = s.rows ++ [rowOfNewEmployee s.nextKey e] := rfl
  rw [hrows, currentFor_append]
  by_cases he : eid' = e.employee_id
  · rw [he, hfresh]
    simpa using currentFor_singleton_le _ _
  · rw [currentFor_singleton_ne _ _
      (by rw [rowOfNewEmployee_id]; exact sqlEqStr_of_ne (Ne.symm he))]
    simpa using h eid'

lemma datesok_apply_address (s : Store) (u : AddressUpdate) (h : DatesOK s.rows)
    (hs : u.effective_date < infiniteSentinel)
    (hlt : ∀ r ∈ s.rows, sqlEqStr r.employee_id u.employee_id = true → r.is_current = true →
      r.effective_date < u.effective_date - 1) :
    DatesOK ((apply_address_update s u).1).rows := by
  unfold apply_address_update
  cases hsel : selectClosed (closeCurrent s u.employee_id u.effective_date) u.employee_id
      u.effective_date with
  | none =>
    simp only [hsel]
    exact datesok_close s.rows _ _ h hlt
  | some ex =>
    simp only [hsel]
    exact datesok_append _ _ (datesok_close s.rows _ _ h hlt) hs

lemma datesok_apply_name (s : Store) (u : NameAddressUpdate) (h : DatesOK s.rows)
    (hs : u.effective_date < infiniteSentinel)
    (hlt : ∀ r ∈ s.rows, sqlEqStr r.employee_id u.employee_id = true → r.is_current = true →
      r.effective_date < u.effective_date - 1) :
    DatesOK ((apply_name_address_update s u).1).rows := by
  unfold apply_name_address_update
  cases hsel : selectClosed (closeCurrent s u.employee_id u.effective_date) u.employee_id
      u.effective_date with
  | none =>
    simp only [hsel]
    exact datesok_close s.rows _ _ h hlt
  | some ex =>
    simp only [hsel]
    exact datesok_append _ _ (datesok_close s.rows _ _ h hlt) hs

lemma datesok_insert (s : Store) (e : NewEmployee) (h : DatesOK s.rows)
    (he : e.effective_date < e.expiry_date) : DatesOK (insert_new_employee s e).rows :=
  datesok_append _ _ h he

lemma currentFor_insert_same (s : Store) (e : NewEmployee) (x : String)
    (hid : e.employee_id = some x) (hc : e.is_current = true) :
    (currentFor (insert_new_employee s e).rows (some x)).length =
      (currentFor s.rows (some x)).length + 1 := by
  have hrows : (insert_new_employee s e).rows = s.rows ++ [rowOfNewEmployee s.nextKey e] := rfl
  rw [hrows, currentFor_append, List.length_append]
  have hone : currentFor [rowOfNewEmployee s.nextKey e] (some x) =
      [rowOfNewEmployee s.nextKey e] := by
    unfold currentFor
    have hp : (sqlEqStr (rowOfNewEmployee s.nextKey e).employee_id (some x) &&
        (rowOfNewEmployee s.nextKey e).is_current) = true := by
      rw [rowOfNewEmployee_id, hid]
      have : (rowOfNewEmployee s.nextKey e).is_current = e.is_current := rfl
      rw [this, hc, sqlEqStr_self]
      rfl
    simp [hp]
  rw [hone]
  rfl

lemma apply_address_missing_entity (s : Store) (u : AddressUpdate)
    (h : ∀ r ∈ s.rows, sqlEqStr r.employee_id u.employee_id = false) :
    apply_address_update s u = (s, 0) := by
  have hclose : closeCurrent s u.employee_id u.effective_date = s := by
    show ({ s with rows := s.rows.map (closeFun u.employee_id u.effective_date) } : Store) = s
    have hmap : s.rows.map (closeFun u.employee_id u.effective_date) = s.rows :=
      map_id_of_mem _ s.rows (fun r hr => by unfold closeFun; rw [h r hr]; simp)
    rw [hmap]
  have hsel : selectClosed s u.employee_id u.effective_date = none := by
    unfold selectClosed
    have hnil : s.rows.filter (fun r =>
        sqlEqStr r.employee_id u.employee_id && r.expiry_date == u.effective_date - 1) = [] := by
      rw [List.filter_eq_nil_iff]
      intro r hr
      rw [h r hr]
      simp
    rw [hnil]
    rfl
  simp only [apply_address_update]
  rw [hclose, hsel]

lemma parse_fold_spec (today : Int) :
    ∀ (rs : List SourceRecord) (acc : ParsedData),
      rs.foldl (parseStep today) acc =
        { new_employees := acc.new_employees ++
            (rs.filter (fun r => r.operation_type == "INSERT")).map
              (fun r => _extract_new_employee_data today r.employee_data)
          address_updates := acc.address_updates ++
            (rs.filter (fun r => r.operation_type == "UPDATE_ADDRESS")).map
              (fun r => _extract_address_update_data today r.employee_data)
          name_and_address_updates := acc.name_and_address_updates ++
            (rs.filter (fun r => r.operation_type == "UPDATE_NAME_ADDRESS")).map
              (fun r => _extract_name_address_update_data today r.employee_data) } := by
  intro rs
  induction rs with
  | nil => intro acc; simp
  | cons r t ih =>
    intro acc
    rw [List.foldl_cons, ih (parseStep today acc r)]
    by_cases h1 : (r.operation_type == "INSERT") = true
    · have hr1 : r.operation_type = "INSERT" := by simpa using h1
      have h2 : (r.operation_type == "UPDATE_ADDRESS") = false := by rw [hr1]; decide
      have h3 : (r.operation_type == "UPDATE_NAME_ADDRESS") = false := by rw [hr1]; decide
      simp [parseStep, h1, h2, h3, List.filter_cons, List.append_assoc]
    · by_cases h2 : (r.operation_type == "UPDATE_ADDRESS") = true
      · have hr2 : r.operation_type = "UPDATE_ADDRESS" := by simpa using h2
        have h3 : (r.operation_type == "UPDATE_NAME_ADDRESS") = false := by rw [hr2]; decide
        simp [parseStep, h1, h2, h3, List.filter_cons, List.append_assoc]
      · by_cases h3 : (r.operation_type == "UPDATE_NAME_ADDRESS") = true
        · simp [parseStep, h1, h2, h3, List.filter_cons, List.append_assoc]
        · simp [parseStep, h1, h2, h3, List.filter_cons]

lemma foldl_record_inserts (today : Int) :
    ∀ (l : List SourceRecord), (∀ r ∈ l, (r.operation_type == "INSERT") = true) →
      ∀ s : Store,
        (l.map (fun r => _extract_new_employee_data today r.employee_data)).foldl
            insert_new_employee s = l.foldl (apply_record today) s := by
  intro l
  induction l with
  | nil => intro _ s; rfl
  | cons r t ih =>
    intro h s
    have hr := h r (List.mem_cons_self r t)
    simp only [List.map_cons, List.foldl_cons]
    rw [show apply_record today s r =
        insert_new_employee s (_extract_new_employee_data today r.employee_data) by
      simp [apply_record, hr]]
    exact ih (fun x hx => h x (List.mem_cons_of_mem r hx)) _

lemma foldl_record_addrs (today : Int) :
    ∀ (l : List SourceRecord), (∀ r ∈ l, (r.operation_type == "UPDATE_ADDRESS") = true) →
      ∀ s : Store,
        (l.map (fun r => _extract_address_update_data today r.employee_data)).foldl
            (fun st u => (apply_address_update st u).1) s = l.foldl (apply_record today) s := by
  intro l
  induction l with
  | nil => intro _ s; rfl
  | cons r t ih =>
    intro h s
    have hr := h r (List.mem_cons_self r t)
    have hr' : r.operation_type = "UPDATE_ADDRESS" := by simpa using hr
    have hIns : (r.operation_type == "INSERT") = false := by rw [hr']; decide
    simp only [List.map_cons, List.foldl_cons]
    rw [show apply_record today s r =
        (apply_address_update s (_extract_address_update_data today r.employee_data)).1 by
      simp [apply_record, hIns, hr]]
    exact ih (fun x hx => h x (List.mem_cons_of_mem r hx)) _

lemma foldl_record_names (today : Int) :
    ∀ (l : List SourceRecord), (∀ r ∈ l, (r.operation_type == "UPDATE_NAME_ADDRESS") = true) →
      ∀ s : Store,
        (l.map (fun r => _extract_name_address_update_data today r.employee_data)).foldl
            (fun st u => (apply_name_address_update st u).1) s =
          l.foldl (apply_record today) s := by
  intro l
  induction l with
  | nil => intro _ s; rfl
  | cons r t ih =>
    intro h s
    have hr := h r (List.mem_cons_self r t)
    have hr' : r.operation_type = "UPDATE_NAME_ADDRESS" := by simpa using hr
    have hIns : (r.operation_type == "INSERT") = false := by rw [hr']; decide
    have hAddr : (r.operation_type == "UPDATE_ADDRESS") = false := by rw [hr']; decide
    simp only [List.map_cons, List.foldl_cons]
    rw [show apply_record today s r =
        (apply_name_address_update s (_extract_name_address_update_data today r.employee_data)).1 by
      simp [apply_record, hIns, hAddr, hr]]
    exact ih (fun x hx => h x (List.mem_cons_of_mem r hx)) _

/-! Concrete scenario data used by the end-to-end statements. -/

/-- Entity E1's first version: Ana Diaz living in Lima (spec scenario A/B). -/
def anaRow : Row :=
  { employee_key := 1
    employee_id := some "E1"
    first_name := some "Ana"
    last_name := some "Diaz"
    full_name := some "Ana Diaz"
    email_address := some "ana@x.pe"
    phone_number := none
    birth_date := none
    gender := none
    ethnicity := none
    nationality := none
    marital_status := none
    address_line1 := some "Av. Sol 123"
    address_line2 := none
    city := some "Lima"
    state_province := none
    postal_code := none
    country_code := some "PE"
    hire_date := some "2020-01-01"
    termination_date := none
    is_active := some true
    effective_date := 20100
    expiry_date := infiniteSentinel
    is_current := true }

/-- A store holding exactly E1's current row. -/
def anaStore : Store := { rows := [anaRow], nextKey := 2 }

/-- The scenario-B change event: city becomes Cusco effective 2025-08-13;
every other address key is absent from the payload. -/
def cityChange : AddressUpdate :=
  { employee_id := some "E1"
    address_line1 := none
    address_line2 := none
    city := some "Cusco"
    state_province := none
    postal_code := none
    country_code := none
    effective_date := day20250813 }

/-- E1's row after the close step of scenario B. -/
def anaClosed : Row := { anaRow with expiry_date := day20250812, is_current := false }

/-- E1's successor row in scenario B: names carried forward, the whole
address block taken from the event (absent keys as NULL). -/
def anaMoved : Row :=
  { anaRow with
      employee_key := 2
      address_line1 := none
      city := some "Cusco"
      country_code := none
      effective_date := day20250813 }

/-- An address-change event for E1 whose effective date equals the current
row's own effective date. -/
def sameDayChange : AddressUpdate := { cityChange with effective_date := 20100 }

/-- Source record: INSERT for E1 (Ana Diaz, Lima). -/
def recInsE1 : SourceRecord :=
  { operation_type := "INSERT"
    employee_data :=
      { employee_id := some "E1"
        personal_info := { first_name := some "Ana", last_name := some "Diaz" }
        contact_info := { address := { city := some "Lima" } } } }

/-- Source record: UPDATE_ADDRESS for E1 (city Cusco). -/
def recUpdE1 : SourceRecord :=
  { operation_type := "UPDATE_ADDRESS"
    employee_data :=
      { employee_id := some "E1"
        contact_info := { address := { city := some "Cusco" } } } }

/-- Source record: INSERT for E2 (spec scenario C). -/
def recInsE2 : SourceRecord :=
  { operation_type := "INSERT"
    employee_data :=
      { employee_id := some "E2"
        personal_info := { first_name := some "Bea", last_name := some "Quispe" } } }

/-- Source record: UPDATE_ADDRESS for the non-existent entity E3
(spec scenario C). -/
def recUpdE3 : SourceRecord :=
  { operation_type := "UPDATE_ADDRESS"
    employee_data :=
      { employee_id := some "E3"
        contact_info := { address := { city := some "Puno" } } } }

/-- Source record with an unrecognised kind tag. -/
def recUnknownKind : SourceRecord :=
  { operation_type := "DELETE"
    employee_data := { employee_id := some "E9" } }

/-- The extracted new-employee dictionary of `recInsE1`. -/
def newE1 : NewEmployee := _extract_new_employee_data day20250813 recInsE1.employee_data

/-- A store in which E1 has two current rows and E8 one, for the validator
statements. -/
def dupStore : Store :=
  { rows := [anaRow, { anaRow with employee_key := 2 },
             { anaRow with employee_key := 3, employee_id := some "E8" }]
    nextKey := 4 }

lemma filter_eq_singleton_of_nodup {α : Type} (p : α → Bool) (e : α) :
    ∀ (l : List α), l.Nodup → e ∈ l → (∀ i ∈ l, (p i = true ↔ i = e)) → l.filter p = [e] := by
  intro l
  induction l with
  | nil => intro _ he _; cases he
  | cons a t ih =>
    intro hnd hmem hiff
    rw [List.filter_cons]
    by_cases ha : a = e
    · subst ha
      rw [if_pos ((hiff a (List.mem_cons_self a t)).mpr rfl)]
      have hnil : t.filter p = [] := by
        rw [List.filter_eq_nil_iff]
        intro b hb hpb
        have hbe : b = a := (hiff b (List.mem_cons_of_mem a hb)).mp hpb
        subst hbe
        exact (List.nodup_cons.mp hnd).1 hb
      rw [hnil]
    · have hpa : p a = false := by
        cases hq : p a with
        | false => rfl
        | true => exact absurd ((hiff a (List.mem_cons_self a t)).mp hq) ha
      rw [if_neg (by rw [hpa]; exact Bool.false_ne_true)]
      have hm : e ∈ t := by
        rcases List.mem_cons.mp hmem with h | h
        · exact absurd h.symm ha
        · exact h
      exact ih (List.nodup_cons.mp hnd).2 hm (fun i hi => hiff i (List.mem_cons_of_mem a hi))

/-! Claim theorems. -/

/-- C7: for entity E1 with a single current row (Ana Diaz, Lima), the
attribute-change event with changed field city = Cusco and effective date
2025-08-13 closes row 1 with expiry 2025-08-12 and is_current = false, and
inserts row 2 carrying forward first_name Ana and last_name Diaz, with city
Cusco, effective date 2025-08-13, is_current = true, and the infinite
sentinel as expiry date. -/
theorem scenario_b_city_change :
    apply_address_update anaStore cityChange =
      ({ rows := [anaClosed, anaMoved], nextKey := 3 }, 1) := by decide

/-- C1 counterexample: the batch of spec scenario C — one NewEntity for E2
plus one AttributeChange for the non-existent E3 — does not fail: the
missing current row is silently skipped, the batch commits (True) and the
store ends with one new row for E2, not zero. -/
theorem batch_with_missing_entity_still_commits :
    (set_employee emptyStore (parse_employee_data day20250813 [recInsE2, recUpdE3])).1 = true ∧
    ((set_employee emptyStore (parse_employee_data day20250813 [recInsE2, recUpdE3])).2.rows.filter
        (fun r => sqlEqStr r.employee_id (some "E2"))).length = 1 := by decide

/-- C2 counterexample: a batch holding an address change for E1 followed by
the INSERT for E1 is not applied in input-sequence order — the pipeline's
result differs from applying the events at their batch positions. -/
theorem batch_not_applied_in_input_order :
    ¬ ((set_employee emptyStore (parse_employee_data day20250813 [recUpdE1, recInsE1])).2 =
        applyBatchInInputOrder day20250813 emptyStore [recUpdE1, recInsE1]) := by decide

/-- C3 counterexample: a batch with two NewEntity events for E1 leaves E1
with two is_current = true rows. -/
theorem duplicate_new_entity_two_current_rows :
    (currentFor (set_employee emptyStore
        (parse_employee_data day20250813 [recInsE1, recInsE1])).2.rows (some "E1")).length
      = 2 := by decide

/-- C4 counterexample: closing E1's current row with an event whose
effective date equals the row's own effective date produces a row with
effective_date ≥ expiry_date, although the input store satisfied the
date-order invariant. -/
theorem close_produces_inverted_range :
    (anaStore.rows.all (fun r => decide (r.effective_date < r.expiry_date))) = true ∧
    ((apply_address_update anaStore sameDayChange).1.rows.any
        (fun r => decide (r.expiry_date ≤ r.effective_date))) = true := by decide

/-- C5 counterexample: inserting the same new employee twice raises no
DuplicateEntityError — both inserts are counted and E1 ends with two
current rows. -/
theorem double_insert_no_duplicate_error :
    (_insert_new_employees emptyStore [newE1, newE1]).2 = 2 ∧
    (currentFor (_insert_new_employees emptyStore [newE1, newE1]).1.rows (some "E1")).length
      = 2 := by decide

/-- C6 counterexample: a record with the unrecognised kind tag DELETE is
silently dropped by parsing — the parsed batch equals that of the empty
input and processing still reports success — rather than being rejected
with a ClassificationError. -/
theorem unknown_kind_leaves_no_trace :
    parse_employee_data day20250813 [recUnknownKind] = parse_employee_data day20250813 [] ∧
    (set_employee emptyStore (parse_employee_data day20250813 [recUnknownKind])).1 = true := by
  decide

/-- C8 counterexample: the UPDATE_ADDRESS record for E1 carries only the
city key, so the extracted event's address_line1 is None (absent), while
E1's current row holds address_line1 = Av. Sol 123; after the update the
successor row's address_line1 is NULL instead of the carried-forward value
— an absent address key is not treated as unchanged. -/
theorem absent_address_field_overwritten_with_null :
    (_extract_address_update_data day20250813 recUpdE1.employee_data).address_line1 = none ∧
    anaRow.address_line1 = some "Av. Sol 123" ∧ anaRow.is_current = true ∧
    ((apply_address_update anaStore
        (_extract_address_update_data day20250813 recUpdE1.employee_data)).1.rows.map
      Row.address_line1) = [some "Av. Sol 123", none] := by decide

/-- C1 amended: a batch holding one NewEntity plus one AttributeChange for
an entity with no row in the store does not fail and is not rolled back:
the AttributeChange is a silent no-op (the close matches no row and the
snapshot SELECT returns nothing, so the `if existing_data:` guard skips
it), the batch commits, and the store keeps exactly the new entity's
inserted row. -/
theorem missing_entity_event_skipped_batch_commits (s : Store) (e : NewEmployee)
    (u : AddressUpdate)
    (h : ∀ r ∈ (insert_new_employee s e).rows, sqlEqStr r.employee_id u.employee_id = false) :
    set_employee s ⟨[e], [u], []⟩ = (true, insert_new_employee s e) := by
  have h2 : apply_address_update (insert_new_employee s e) u = (insert_new_employee s e, 0) :=
    apply_address_missing_entity _ u h
  simp only [set_employee, _insert_new_employees, _update_employee_addresses,
    _update_employee_names_addresses, List.foldl_cons, List.foldl_nil, h2]

/-- Witness for the amended C1 statement at a concrete batch: insert E1
into the empty store and apply an address change for the absent E3. -/
theorem missing_entity_event_skipped_batch_commits_witness :
    set_employee emptyStore
        ⟨[newE1], [_extract_address_update_data day20250813 recUpdE3.employee_data], []⟩ =
      (true, insert_new_employee emptyStore newE1) :=
  missing_entity_event_skipped_batch_commits emptyStore newE1
    (_extract_address_update_data day20250813 recUpdE3.employee_data) (by decide)

/-- C2 amended: the pipeline applies the batch grouped by kind — every
NewEntity first, then every address change, then every name-and-address
change — and only inside each group in input order; the commit flag is
always True.  Equivalently, the committed store equals in-order application
of the stably reordered batch. -/
theorem batch_applied_grouped_by_kind (today : Int) (s : Store) (rs : List SourceRecord) :
    (set_employee s (parse_employee_data today rs)).1 = true ∧
    (set_employee s (parse_employee_data today rs)).2 =
      applyBatchInInputOrder today s
        (rs.filter (fun r => r.operation_type == "INSERT")
          ++ rs.filter (fun r => r.operation_type == "UPDATE_ADDRESS")
          ++ rs.filter (fun r => r.operation_type == "UPDATE_NAME_ADDRESS")) := by
  refine ⟨rfl, ?_⟩
  rw [set_employee_snd]
  rw [show parse_employee_data today rs = rs.foldl (parseStep today)
      { new_employees := [], address_updates := [], name_and_address_updates := [] } from rfl]
  rw [parse_fold_spec today rs]
  dsimp only
  simp only [List.nil_append]
  unfold applyBatchInInputOrder
  rw [List.foldl_append, List.foldl_append]
  rw [foldl_record_inserts today _ (fun r hr => (List.mem_filter.mp hr).2) s]
  rw [foldl_record_addrs today _ (fun r hr => (List.mem_filter.mp hr).2) _]
  rw [foldl_record_names today _ (fun r hr => (List.mem_filter.mp hr).2) _]

/-- C3 amended: every attribute-change operation preserves the
at-most-one-current-row-per-entity invariant, and a NewEntity insert
preserves it provided the entity has no current row yet; a NewEntity
targeting an entity with a current row violates it (see the
counterexample). -/
theorem scd2_preserves_single_current (s : Store) (h : AtMostOneCurrent s.rows) :
    (∀ u : AddressUpdate, AtMostOneCurrent ((apply_address_update s u).1).rows) ∧
    (∀ u : NameAddressUpdate, AtMostOneCurrent ((apply_name_address_update s u).1).rows) ∧
    (∀ e : NewEmployee, currentFor s.rows e.employee_id = [] →
      AtMostOneCurrent (insert_new_employee s e).rows) :=
  ⟨fun u => amo_apply_address s h u, fun u => amo_apply_name s h u,
    fun e he => amo_insert_fresh s h e he⟩

/-- Witness for the amended C3 statement: scenario B's address change on
E1's one-row store keeps at most one current row per entity. -/
theorem scd2_preserves_single_current_witness :
    AtMostOneCurrent ((apply_address_update anaStore cityChange).1).rows := by
  have h : AtMostOneCurrent anaStore.rows := fun eid => currentFor_singleton_le anaRow eid
  exact (scd2_preserves_single_current anaStore h).1 cityChange

/-- C4 amended: effective_date < expiry_date is preserved by a NewEntity
insert whose interval is non-degenerate, and by an attribute change whose
effective date is below the sentinel and exceeds by more than one day the
effective date of every current row it closes; an event effective no later
than one day after the closed row's effective date produces an inverted
range (see the counterexample). -/
theorem scd2_preserves_date_order (s : Store) (h : DatesOK s.rows) :
    (∀ e : NewEmployee, e.effective_date < e.expiry_date →
      DatesOK (insert_new_employee s e).rows) ∧
    (∀ u : AddressUpdate, u.effective_date < infiniteSentinel →
      (∀ r ∈ s.rows, sqlEqStr r.employee_id u.employee_id = true → r.is_current = true →
        r.effective_date < u.effective_date - 1) →
      DatesOK ((apply_address_update s u).1).rows) ∧
    (∀ u : NameAddressUpdate, u.effective_date < infiniteSentinel →
      (∀ r ∈ s.rows, sqlEqStr r.employee_id u.employee_id = true → r.is_current = true →
        r.effective_date < u.effective_date - 1) →
      DatesOK ((apply_name_address_update s u).1).rows) :=
  ⟨fun e he => datesok_insert s e h he,
    fun u hs hlt => datesok_apply_address s u h hs hlt,
    fun u hs hlt => datesok_apply_name s u h hs hlt⟩

/-- Witness for the amended C4 statement: scenario B's address change on
E1's one-row store keeps every date range non-degenerate. -/
theorem scd2_preserves_date_order_witness :
    DatesOK ((apply_address_update anaStore cityChange).1).rows := by
  have h : DatesOK anaStore.rows := by
    intro r hr
    rw [show anaStore.rows = [anaRow] from rfl, List.mem_singleton] at hr
    subst hr
    decide
  refine (scd2_preserves_date_order anaStore h).2.1 cityChange (by decide) ?_
  intro r hr h1 h2
  rw [show anaStore.rows = [anaRow] from rfl, List.mem_singleton] at hr
  subst hr
  decide

/-- C5 amended: a NewEntity insert is unconditional — no DuplicateEntityError
exists.  The loop counts the row as inserted, and when the entity already
has current rows the entity's current-row count grows by one (so an entity
that already had a current row ends with two). -/
theorem insert_appends_second_current_row (s : Store) (e : NewEmployee) (x : String)
    (hid : e.employee_id = some x) (hc : e.is_current = true) :
    _insert_new_employees s [e] = (insert_new_employee s e, 1) ∧
    (currentFor (insert_new_employee s e).rows (some x)).length =
      (currentFor s.rows (some x)).length + 1 :=
  ⟨rfl, currentFor_insert_same s e x hid hc⟩

/-- Witness for the amended C5 statement: inserting E1 into the store that
already holds E1's current row counts one insert and raises E1's
current-row count from one to two. -/
theorem insert_appends_second_current_row_witness :
    _insert_new_employees anaStore [newE1] = (insert_new_employee anaStore newE1, 1) ∧
    (currentFor (insert_new_employee anaStore newE1).rows (some "E1")).length =
      (currentFor anaStore.rows (some "E1")).length + 1 :=
  insert_appends_second_current_row anaStore newE1 "E1" (by decide) (by decide)

/-- C6 amended: a record whose declared kind tag matches none of INSERT,
UPDATE_ADDRESS and UPDATE_NAME_ADDRESS is silently skipped by the routing
loop: the parsed batch is the same as if the record were absent; no error
of any kind is raised. -/
theorem unknown_kind_silently_skipped (today : Int) (rs : List SourceRecord) (r : SourceRecord)
    (h1 : r.operation_type ≠ "INSERT") (h2 : r.operation_type ≠ "UPDATE_ADDRESS")
    (h3 : r.operation_type ≠ "UPDATE_NAME_ADDRESS") :
    parse_employee_data today (rs ++ [r]) = parse_employee_data today rs := by
  unfold parse_employee_data
  rw [List.foldl_append]
  simp only [List.foldl_cons, List.foldl_nil]
  unfold parseStep
  have b1 : (r.operation_type == "INSERT") = false := by
    cases hq : r.operation_type == "INSERT" with
    | false => rfl
    | true => exact absurd (by simpa using hq) h1
  have b2 : (r.operation_type == "UPDATE_ADDRESS") = false := by
    cases hq : r.operation_type == "UPDATE_ADDRESS" with
    | false => rfl
    | true => exact absurd (by simpa using hq) h2
  have b3 : (r.operation_type == "UPDATE_NAME_ADDRESS") = false := by
    cases hq : r.operation_type == "UPDATE_NAME_ADDRESS" with
    | false => rfl
    | true => exact absurd (by simpa using hq) h3
  simp [b1, b2, b3]

/-- Witness for the amended C6 statement: appending the DELETE-tagged
record to a one-record batch parses to the same result as the batch
without it. -/
theorem unknown_kind_silently_skipped_witness :
    parse_employee_data day20250813 [recInsE2, recUnknownKind] =
      parse_employee_data day20250813 [recInsE2] :=
  unknown_kind_silently_skipped day20250813 [recInsE2] recUnknownKind
    (by decide) (by decide) (by decide)

/-- C8 amended: when the snapshot SELECT finds a closed row, the successor
row carries forward from that snapshot exactly the non-address attributes
(names, contact identifiers, demographic and employment fields), while all
six address columns are overwritten wholesale from the event's dictionary —
an address key absent from the event becomes NULL rather than staying
unchanged. -/
theorem address_merge_overwrites_address_block (s : Store) (u : AddressUpdate) (ex : Row)
    (h : selectClosed (closeCurrent s u.employee_id u.effective_date) u.employee_id
        u.effective_date = some ex) :
    (apply_address_update s u).1.rows =
      (closeCurrent s u.employee_id u.effective_date).rows ++
        [{ employee_key := (closeCurrent s u.employee_id u.effective_date).nextKey
           employee_id := ex.employee_id
           first_name := ex.first_name
           last_name := ex.last_name
           full_name := ex.full_name
           email_address := ex.email_address
           phone_number := ex.phone_number
           birth_date := ex.birth_date
           gender := ex.gender
           ethnicity := ex.ethnicity
           nationality := ex.nationality
           marital_status := ex.marital_status
           address_line1 := u.address_line1
           address_line2 := u.address_line2
           city := u.city
           state_province := u.state_province
           postal_code := u.postal_code
           country_code := u.country_code
           hire_date := ex.hire_date
           termination_date := ex.termination_date
           is_active := ex.is_active
           effective_date := u.effective_date
           expiry_date := infiniteSentinel
           is_current := true }] ∧
    (apply_address_update s u).2 = 1 := by
  unfold apply_address_update
  simp only [h]
  exact ⟨trivial, trivial⟩

/-- Witness for the amended C8 statement: scenario B's event on E1's store,
whose snapshot row is the closed Ana row. -/
theorem address_merge_overwrites_address_block_witness :
    (apply_address_update anaStore cityChange).2 = 1 :=
  (address_merge_overwrites_address_block anaStore cityChange anaClosed (by decide)).2

/-- C9: on a store where exactly one entity has more than one current row,
the duplicate-currents check reports exactly that one entity (one entry,
not one per row); and validation is read-only — the store produced by the
main flow is the committed store, whatever the validator reports. -/
theorem validator_reports_one_duplicate_entity (s : Store) (e : Option String)
    (h1 : 1 < (currentIdList s).count e)
    (h2 : ∀ i : Option String, i ≠ e → (currentIdList s).count i ≤ 1) :
    duplicate_current_ids s = [e] ∧
      (∀ today records s0, (main_flow today records s0).1 =
        (set_employee s0 (parse_employee_data today records)).2) := by
  constructor
  · unfold duplicate_current_ids
    apply filter_eq_singleton_of_nodup
    · exact List.nodup_dedup _
    · refine List.mem_dedup.mpr ?_
      by_contra hmem
      rw [← List.count_eq_zero] at hmem
      omega
    · intro i hi
      constructor
      · intro hp
        by_contra hne
        have hle := h2 i hne
        simp only [decide_eq_true_eq] at hp
        omega
      · intro hieq
        subst hieq
        simpa using h1
  · intro today records s0
    rfl

/-- Witness for C9: the store where E1 has two current rows and E8 one
reports exactly E1. -/
theorem validator_reports_one_duplicate_entity_witness :
    duplicate_current_ids dupStore = [some "E1"] := by
  have h1 : 1 < (currentIdList dupStore).count (some "E1") := by decide
  have h2 : ∀ i : Option String, i ≠ some "E1" → (currentIdList dupStore).count i ≤ 1 := by
    intro i hi
    have hne1 : ((some "E1" : Option String) == i) = false := by
      cases hq : (some "E1" : Option String) == i with
      | false => rfl
      | true => exact absurd (eq_of_beq hq).symm hi
    have hlist : currentIdList dupStore = [some "E1", some "E1", some "E8"] := rfl
    rw [hlist]
    simp only [List.count_cons, List.count_nil, hne1]
    by_cases h8 : ((some "E8" : Option String) == i) = true <;> simp [h8]
  exact (validator_reports_one_duplicate_entity dupStore (some "E1") h1 h2).1

/-- C10: the close UPDATE carries no row limit — every current row of the
target entity is rewritten to expiry = effective date minus one day and
is_current = false, and afterwards the entity has no current row at all;
and whenever the snapshot SELECT returns a row, that row belongs to the
entity, has the matching expiry date, and carries the largest employee_key
among all such rows (ORDER BY employee_key DESC LIMIT 1). -/
theorem close_updates_all_and_snapshot_max (s : Store) (eid : Option String) (eff : Int) :
    (∀ r ∈ s.rows, sqlEqStr r.employee_id eid = true → r.is_current = true →
      closeRow eff r ∈ (closeCurrent s eid eff).rows) ∧
    currentFor (closeCurrent s eid eff).rows eid = [] ∧
    (∀ ex : Row, selectClosed s eid eff = some ex →
      (ex ∈ s.rows ∧ sqlEqStr ex.employee_id eid = true ∧ ex.expiry_date = eff - 1) ∧
      (∀ r ∈ s.rows, sqlEqStr r.employee_id eid = true → r.expiry_date = eff - 1 →
        r.employee_key ≤ ex.employee_key)) := by
  refine ⟨?_, ?_, ?_⟩
  · intro r hr h1 h2
    have hce : closeFun eid eff r = closeRow eff r := by
      unfold closeFun
      rw [h1, h2]
      simp
    rw [show (closeCurrent s eid eff).rows = s.rows.map (closeFun eid eff) from rfl, ← hce]
    exact List.mem_map_of_mem _ hr
  · exact currentFor_close_self s.rows eid eff
  · intro ex hex
    refine ⟨selectClosed_spec hex, ?_⟩
    intro r hr h1 h2
    unfold selectClosed at hex
    rcases maxByKey_spec hex with ⟨_, hmax⟩
    apply hmax
    rw [List.mem_filter]
    refine ⟨hr, ?_⟩
    rw [h1, h2]
    simp

/-- Witness for C10 at E1's one-row store: the current Ana row is closed by
the update. -/
theorem close_updates_all_and_snapshot_max_witness :
    closeRow day20250813 anaRow ∈ (closeCurrent anaStore (some "E1") day20250813).rows :=
  (close_updates_all_and_snapshot_max anaStore (some "E1") day20250813).1 anaRow
    (by decide) (by decide) (by decide)
